import Mathlib

/-!
Verification of the Black-Scholes valuation core of the Deribit-Options
repository (`data_utils.py`): `calculate_greeks` and `calculate_iv_from_price`.

Modelling conventions:
* Python strings are `List Char` (named `Str` below); `str.split('-')` is
  `splitOnChar '-'`, `' ' in s` is `s.contains ' '`.
* Python floats are modelled as exact rationals `ℚ`.
* A Python function that can raise an uncaught exception is modelled as
  `Except String α`: `.error` is an exception propagating to the caller,
  `.ok` a normal return.
* `datetime.strptime` is modelled by explicit parsers for the three format
  strings appearing in the source (`"%d%b%y %H:%M:%S"`, `"%Y-%m-%d %H:%M:%S"`,
  `"%Y-%m-%d"`), faithful to CPython's matching rules on the inputs they
  accept (the model accepts a subset of CPython's inputs: it does not model
  whitespace elasticity or locale-dependent month names beyond ASCII
  case-insensitivity).
* `datetime.utcnow()` (the default observation instant) enters as an explicit
  `utcnow` argument.
* The py_vollib backend (`delta`, `gamma`, `vega`, `theta`,
  `implied_volatility`) is external library code, not part of this
  repository; it is modelled as an abstract `Libs` structure whose fields
  may either return a value or raise.
-/

namespace DeribitOptions

/-- Python strings, modelled as their character lists. -/
abbrev Str : Type := List Char

/-- Model of Python `str.split(sep)` for a one-character separator:
every maximal (possibly empty) run between separators becomes a field. -/
def splitOnChar (c : Char) : List Char → List (List Char)
  | [] => [[]]
  | x :: xs =>
    let rest := splitOnChar c xs
    if x = c then [] :: rest
    else
      match rest with
      | [] => [[x]]
      | r :: rs => (x :: r) :: rs

/-- Value of a decimal digit string (most significant first). -/
def digitsVal (l : List Char) : ℕ :=
  l.foldl (fun a c => 10 * a + (c.toNat - 48)) 0

/-- Every character is a decimal digit. -/
def allDigits (l : List Char) : Bool :=
  l.all Char.isDigit

/-- Model of Python `float(s)` on plain decimal literals: an optional sign
followed by `digits`, `digits.digits`, `digits.`, or `.digits`.
`none` models the `ValueError` that `float` raises otherwise.
(Exponents, `inf`/`nan`, underscores and surrounding whitespace — all
irrelevant to the instrument grammar — are outside the model.) -/
def pyFloat? (s : Str) : Option ℚ :=
  let core : Str → Option ℚ := fun t =>
    match splitOnChar '.' t with
    | [i] =>
        if !i.isEmpty && allDigits i then some (digitsVal i : ℚ) else none
    | [i, f] =>
        if (!i.isEmpty || !f.isEmpty) && allDigits i && allDigits f then
          some ((digitsVal i : ℚ) + (digitsVal f : ℚ) / 10 ^ f.length)
        else none
    | _ => none
  match s with
  | '+' :: rest => core rest
  | '-' :: rest => (core rest).map (fun q => -q)
  | _ => core s

/-- Gregorian leap-year rule (CPython `datetime` calendar). -/
def isLeapYear (y : ℕ) : Bool :=
  (y % 4 == 0 && y % 100 != 0) || (y % 400 == 0)

/-- Number of days in month `m` (1-12) of year `y`. -/
def monthLen (y m : ℕ) : ℕ :=
  if m = 2 then (if isLeapYear y then 29 else 28)
  else if m = 4 ∨ m = 6 ∨ m = 9 ∨ m = 11 then 30
  else 31

/-- Days in year `y` strictly before month `m` (1-12). -/
def daysBeforeMonth (y m : ℕ) : ℕ :=
  [0, 0, 31, 59, 90, 120, 151, 181, 212, 243, 273, 304, 334].getD m 0
    + (if 2 < m && isLeapYear y then 1 else 0)

/-- Days strictly before January 1 of year `y` in the proleptic Gregorian
calendar counted from year 1 (CPython `date.toordinal` minus one). -/
def daysBeforeYear (y : ℕ) : ℕ :=
  (y - 1) * 365 + (y - 1) / 4 - (y - 1) / 100 + (y - 1) / 400

/-- A naive `datetime.datetime` as produced by `strptime` (no timezone,
exactly as in the source, which compares naive datetimes). -/
structure DateTime where
  year : ℕ
  month : ℕ
  day : ℕ
  hour : ℕ
  minute : ℕ
  second : ℕ
deriving DecidableEq

/-- Seconds from the calendar origin to a datetime; differences of this
quantity model `(dt1 - dt2).total_seconds()` (exact for whole seconds). -/
def dtSeconds (dt : DateTime) : ℕ :=
  (daysBeforeYear dt.year + daysBeforeMonth dt.year dt.month + (dt.day - 1)) * 86400
    + dt.hour * 3600 + dt.minute * 60 + dt.second

/-- CPython `%b`: ASCII case-insensitive three-letter month abbreviation. -/
def monthIdx? (l : Str) : Option ℕ :=
  match l.map Char.toUpper with
  | ['J', 'A', 'N'] => some 1
  | ['F', 'E', 'B'] => some 2
  | ['M', 'A', 'R'] => some 3
  | ['A', 'P', 'R'] => some 4
  | ['M', 'A', 'Y'] => some 5
  | ['J', 'U', 'N'] => some 6
  | ['J', 'U', 'L'] => some 7
  | ['A', 'U', 'G'] => some 8
  | ['S', 'E', 'P'] => some 9
  | ['O', 'C', 'T'] => some 10
  | ['N', 'O', 'V'] => some 11
  | ['D', 'E', 'C'] => some 12
  | _ => none

/-- Model of `datetime.strptime(s, "%d%b%y")` (full match): one or two day
digits, a month abbreviation, exactly two year digits (pivot: 00-68 within
2000-2068, 69-99 within 1969-1999), with the day validated against the
month length; `none` models the `ValueError` path. -/
def parseDMY (s : Str) : Option (ℕ × ℕ × ℕ) :=
  let dayDigits := s.takeWhile Char.isDigit
  let rest := s.dropWhile Char.isDigit
  if dayDigits.length = 0 ∨ 2 < dayDigits.length then none
  else
    match rest with
    | c1 :: c2 :: c3 :: yearDigits =>
      match monthIdx? [c1, c2, c3] with
      | none => none
      | some m =>
        if yearDigits.length = 2 ∧ allDigits yearDigits then
          let yy := digitsVal yearDigits
          let y := if yy ≤ 68 then 2000 + yy else 1900 + yy
          let d := digitsVal dayDigits
          if 1 ≤ d ∧ d ≤ monthLen y m then some (y, m, d) else none
        else none
    | _ => none

/-- Model of `datetime.strptime(s, "%Y-%m-%d")` (full match): exactly four
year digits, one or two month digits (1-12), one or two day digits validated
against the month length; `none` models the `ValueError` path. -/
def parseYMD (s : Str) : Option (ℕ × ℕ × ℕ) :=
  match splitOnChar '-' s with
  | [ys, ms, ds] =>
    if ys.length = 4 ∧ allDigits ys
        ∧ 1 ≤ ms.length ∧ ms.length ≤ 2 ∧ allDigits ms
        ∧ 1 ≤ ds.length ∧ ds.length ≤ 2 ∧ allDigits ds then
      let y := digitsVal ys
      let m := digitsVal ms
      let d := digitsVal ds
      if 1 ≤ y ∧ 1 ≤ m ∧ m ≤ 12 ∧ 1 ≤ d ∧ d ≤ monthLen y m then
        some (y, m, d)
      else none
    else none
  | _ => none

/-- Model of the `"%H:%M:%S"` tail of `strptime`: one or two digits per
component, hour 0-23, minute 0-59, second 0-59. -/
def parseHMS (s : Str) : Option (ℕ × ℕ × ℕ) :=
  match splitOnChar ':' s with
  | [hs, ms, ss] =>
    if 1 ≤ hs.length ∧ hs.length ≤ 2 ∧ allDigits hs
        ∧ 1 ≤ ms.length ∧ ms.length ≤ 2 ∧ allDigits ms
        ∧ 1 ≤ ss.length ∧ ss.length ≤ 2 ∧ allDigits ss then
      let h := digitsVal hs
      let mi := digitsVal ms
      let se := digitsVal ss
      if h ≤ 23 ∧ mi ≤ 59 ∧ se ≤ 59 then some (h, mi, se) else none
    else none
  | _ => none

/-- Model of `datetime.strptime(s, "%Y-%m-%d %H:%M:%S")` (full match). -/
def parseYMDHMS (s : Str) : Option DateTime :=
  match splitOnChar ' ' s with
  | [dpart, tpart] =>
    (parseYMD dpart).bind fun ymd =>
      (parseHMS tpart).map fun hms =>
        ⟨ymd.1, ymd.2.1, ymd.2.2, hms.1, hms.2.1, hms.2.2⟩
  | _ => none

/-- Lines 26-28 / 78-80 of `data_utils.py`: parse `parts[1] + " 08:00:00"`
with format `"%d%b%y %H:%M:%S"`. The appended time literal is constant, so
this is the `%d%b%y` parse of the expiry field combined with the fixed
08:00:00 settlement time. -/
def parseExpiry (s : Str) : Option DateTime :=
  (parseDMY s).map fun ymd => ⟨ymd.1, ymd.2.1, ymd.2.2, 8, 0, 0⟩

/-- Lines 30-36 / 82-88 of `data_utils.py`: resolve the observation instant.
Python's truthiness test `if snapshot_date_str:` treats `None` and the empty
string alike (fall back to `datetime.utcnow()`, the `utcnow` argument here);
a string containing a space is parsed as `"%Y-%m-%d %H:%M:%S"`, otherwise as
a bare `"%Y-%m-%d"` date, i.e. midnight. `none` models the `ValueError`
caught by the surrounding `try`. -/
def resolveNow (snapshot_date_str : Option Str) (utcnow : DateTime) : Option DateTime :=
  match snapshot_date_str with
  | none => some utcnow
  | some s =>
    if s.isEmpty then some utcnow
    else if s.contains ' ' then parseYMDHMS s
    else (parseYMD s).map fun ymd => ⟨ymd.1, ymd.2.1, ymd.2.2, 0, 0, 0⟩

/-- Python `round(x, _)` at integer resolution on exact rationals:
nearest integer, ties to even (banker's rounding). -/
def pyRound (x : ℚ) : ℤ :=
  if x - ⌊x⌋ < 1 / 2 then ⌊x⌋
  else if 1 / 2 < x - ⌊x⌋ then ⌊x⌋ + 1
  else if 2 ∣ ⌊x⌋ then ⌊x⌋ else ⌊x⌋ + 1

/-- Python `round(x, n)`: round to `n` decimal places. -/
def roundTo (n : ℕ) (x : ℚ) : ℚ :=
  (pyRound (x * 10 ^ n) : ℚ) / 10 ^ n

/-- Modelled from the spec: the external py_vollib Black-Scholes backend
(`delta`, `gamma`, `vega`, `theta` over flag `'c'`/`'p'`, spot, strike,
time-to-expiry, rate, volatility, and the implied-volatility solver over
price, spot, strike, time-to-expiry, rate, flag). The library is a
dependency, not repository code, so it is kept abstract; a call either
returns a value (`.ok`) or raises (`.error`), which the source catches. -/
structure Libs where
  delta : Char → ℚ → ℚ → ℚ → ℚ → ℚ → Except String ℚ
  gamma : Char → ℚ → ℚ → ℚ → ℚ → ℚ → Except String ℚ
  vega : Char → ℚ → ℚ → ℚ → ℚ → ℚ → Except String ℚ
  theta : Char → ℚ → ℚ → ℚ → ℚ → ℚ → Except String ℚ
  implied_volatility : ℚ → ℚ → ℚ → ℚ → ℚ → Char → Except String ℚ

/-- Outcome tag of a Greeks result: the dict's `"error"` or `"expired"` key. -/
inductive Tag where
  | error (msg : String)
  | expired
deriving DecidableEq

/-- The dictionary returned by `calculate_greeks`: the four Greeks plus the
optional error/expired marker. -/
structure GreeksResult where
  delta : ℚ
  gamma : ℚ
  vega : ℚ
  theta : ℚ
  tag : Option Tag
deriving DecidableEq

/-- The zeroed sentinel dict `{"delta": 0, ..., tag}`. -/
def zeroedWith (t : Tag) : GreeksResult :=
  { delta := 0, gamma := 0, vega := 0, theta := 0, tag := some t }

/-- Seconds in a 365.25-day year: `365.25 * 24 * 3600`. -/
def yearSeconds : ℚ := 31557600

/-- Lines 48-64 of `data_utils.py`: IV validation (`if not iv or iv <= 0`,
which rejects `None`, zero and negatives alike), `sigma = iv / 100`,
`r = 0.05`, the four backend calls in source order (the first exception
being caught by the `try` of lines 56-64 and turned into the
`"Greeks calc error"` sentinel), and the per-Greek rounding. -/
def greeksBody (L : Libs) (option_type : Char) (spot_price strike t : ℚ)
    (iv : Option ℚ) : GreeksResult :=
  match iv with
  | none => zeroedWith (.error "Invalid IV")
  | some v =>
    if v ≤ 0 then zeroedWith (.error "Invalid IV")
    else
      let sigma : ℚ := v / 100
      let r : ℚ := 5 / 100
      match L.delta option_type spot_price strike t r sigma with
      | .error e => zeroedWith (.error ("Greeks calc error: " ++ e))
      | .ok dv =>
        match L.gamma option_type spot_price strike t r sigma with
        | .error e => zeroedWith (.error ("Greeks calc error: " ++ e))
        | .ok gv =>
          match L.vega option_type spot_price strike t r sigma with
          | .error e => zeroedWith (.error ("Greeks calc error: " ++ e))
          | .ok vv =>
            match L.theta option_type spot_price strike t r sigma with
            | .error e => zeroedWith (.error ("Greeks calc error: " ++ e))
            | .ok tv =>
              { delta := roundTo 4 dv, gamma := roundTo 6 gv,
                vega := roundTo 4 vv, theta := roundTo 4 tv, tag := none }

/-- Embedding of `calculate_greeks` (`data_utils.py` lines 7-64).
`.error` is an uncaught Python exception: note that `float(parts[2])`
(line 22) runs outside every `try`/`except`.
The four-field match is Python's `len(parts) != 4` check; the tail of the
function (from the IV validation on) is `greeksBody`. -/
def calculate_greeks (L : Libs) (instrument : Str) (spot_price : ℚ) (iv : Option ℚ)
    (snapshot_date_str : Option Str) (utcnow : DateTime) : Except String GreeksResult :=
  match splitOnChar '-' instrument with
  | [_underlying, expiryField, strikeField, classField] =>
    match pyFloat? strikeField with
    | none => .error "ValueError: could not convert string to float"
    | some strike =>
      let option_type : Char := if classField = ['C'] then 'c' else 'p'
      match parseExpiry expiryField with
      | none => .ok (zeroedWith (.error "Date parse error"))
      | some expiry_dt =>
        match resolveNow snapshot_date_str utcnow with
        | none => .ok (zeroedWith (.error "Date parse error"))
        | some now =>
          let time_diff : ℤ := (dtSeconds expiry_dt : ℤ) - (dtSeconds now : ℤ)
          if time_diff ≤ 0 then
            .ok { delta := 0, gamma := 0, vega := 0, theta := 0, tag := some .expired }
          else
            let t : ℚ := (time_diff : ℚ) / yearSeconds
            .ok (greeksBody L option_type spot_price strike t iv)
  | _ => .ok (zeroedWith (.error "Invalid instrument format"))

/-- Embedding of `calculate_iv_from_price` (`data_utils.py` lines 66-110).
`.ok none` is Python's `return None`; `.error` is an uncaught exception —
as in the forward path, `float(parts[2])` (line 74) runs outside every
`try`/`except`. -/
def calculate_iv_from_price (L : Libs) (instrument : Str) (spot_price option_price : ℚ)
    (snapshot_date_str : Option Str) (utcnow : DateTime) : Except String (Option ℚ) :=
  match splitOnChar '-' instrument with
  | [_underlying, expiryField, strikeField, classField] =>
    match pyFloat? strikeField with
    | none => .error "ValueError: could not convert string to float"
    | some strike =>
      let option_type : Char := if classField = ['C'] then 'c' else 'p'
      match parseExpiry expiryField with
      | none => .ok none
      | some expiry_dt =>
        match resolveNow snapshot_date_str utcnow with
        | none => .ok none
        | some now =>
          let time_diff : ℤ := (dtSeconds expiry_dt : ℤ) - (dtSeconds now : ℤ)
          if time_diff ≤ 0 then .ok none
          else
            let t : ℚ := (time_diff : ℚ) / yearSeconds
            let r : ℚ := 5 / 100
            let option_price_usd : ℚ := option_price * spot_price
            match L.implied_volatility option_price_usd spot_price strike t r option_type with
            | .ok ivv => .ok (some (ivv * 100))
            | .error _ => .ok none
  | _ => .ok none

/-- The instrument-parsing phase shared by both valuation functions
(`data_utils.py` lines 18-28 / 70-80, spec section 4.1): split into exactly
four dash-separated fields, read the strike as a number, map the class field
(`'c'` for call when it is literally `"C"`, `'p'` for put otherwise), and
combine the `%d%b%y` expiry date with the fixed 08:00:00 settlement time. -/
def parse (instrument : Str) : Option (ℚ × Char × DateTime) :=
  match splitOnChar '-' instrument with
  | [_underlying, expiryField, strikeField, classField] =>
    match pyFloat? strikeField, parseExpiry expiryField with
    | some strike, some expiry_dt =>
        some (strike, (if classField = ['C'] then 'c' else 'p'), expiry_dt)
    | _, _ => none
  | _ => none

/-! ### Claim theorems -/

/-- C1: the claim states that `calculate_greeks` never propagates an exception
and that a four-field instrument with a non-numeric strike yields the zeroed
parse-error sentinel. The code contradicts it: `float(parts[2])` (line 22)
runs outside every `try`/`except`, so on `"BTC-27MAR26-XYZ-C"` the call
raises `ValueError` to the caller — for every spot price, IV, snapshot
string, clock and backend. -/
theorem claim1_greeks_nonnumeric_strike_raises (L : Libs) (spot : ℚ) (iv : Option ℚ)
    (snap : Option Str) (utcnow : DateTime) :
    calculate_greeks L "BTC-27MAR26-XYZ-C".toList spot iv snap utcnow
      = .error "ValueError: could not convert string to float" := rfl

/-- C2: the claim states that `calculate_iv_from_price` collapses every
failure mode — including a non-numeric strike — to `None`. The code
contradicts it: `float(parts[2])` (line 74) runs outside every
`try`/`except`, so on `"BTC-27MAR26-XYZ-C"` the call raises `ValueError`
to the caller instead of returning `None` — for every spot, option price,
snapshot string, clock and backend. -/
theorem claim2_iv_nonnumeric_strike_raises (L : Libs) (spot p : ℚ)
    (snap : Option Str) (utcnow : DateTime) :
    calculate_iv_from_price L "BTC-27MAR26-XYZ-C".toList spot p snap utcnow
      = .error "ValueError: could not convert string to float" := rfl

/-- C3: for every instrument string with exactly four dash-separated fields
whose strike field is a numeric literal and whose expiry field parses as
day-month-abbreviation-year, the parsing phase recovers exactly the encoded
values: the strike read as a number, class `'c'` (call) exactly when the
fourth field is the literal `"C"` and `'p'` (put) for any other fourth
field, and the encoded date at the fixed 08:00:00 settlement time. -/
theorem claim3_parse_wellformed (instr u ds ks cs : Str) (k : ℚ) (y m d : ℕ)
    (hsplit : splitOnChar '-' instr = [u, ds, ks, cs])
    (hstrike : pyFloat? ks = some k)
    (hdate : parseDMY ds = some (y, m, d)) :
    parse instr = some (k, (if cs = ['C'] then 'c' else 'p'), ⟨y, m, d, 8, 0, 0⟩) := by
  simp only [parse, hsplit, parseExpiry, hdate, hstrike]
  rfl

/-- C3 witness: the spec's own example `BTC-27MAR26-80000-C` parses to
strike 80000, a call, expiring 2026-03-27 08:00:00. -/
theorem claim3_parse_wellformed_witness :
    parse "BTC-27MAR26-80000-C".toList
      = some (80000, (if "C".toList = ['C'] then 'c' else 'p'), ⟨2026, 3, 27, 8, 0, 0⟩) :=
  claim3_parse_wellformed "BTC-27MAR26-80000-C".toList
    "BTC".toList "27MAR26".toList "80000".toList "C".toList 80000 2026 3 27
    (by decide) (by decide) (by decide)

/-- C9: both valuation functions are pure and deterministic: in this
embedding they are plain functions of instrument, spot, IV or option price,
snapshot string and the observation clock (the only impurity in the source,
`datetime.utcnow()`, enters as the explicit `utcnow` argument), so two
calls with identical inputs return identical results. -/
theorem claim9_pure_deterministic (L : Libs) (i1 i2 : Str) (s1 s2 : ℚ)
    (iv1 iv2 : Option ℚ) (p1 p2 : ℚ) (sn1 sn2 : Option Str) (n1 n2 : DateTime)
    (hi : i1 = i2) (hs : s1 = s2) (hiv : iv1 = iv2) (hp : p1 = p2)
    (hsn : sn1 = sn2) (hn : n1 = n2) :
    calculate_greeks L i1 s1 iv1 sn1 n1 = calculate_greeks L i2 s2 iv2 sn2 n2
      ∧ calculate_iv_from_price L i1 s1 p1 sn1 n1
          = calculate_iv_from_price L i2 s2 p2 sn2 n2 := by
  subst hi hs hiv hp hsn hn
  exact ⟨rfl, rfl⟩

/-- C9 witness: determinism instantiated at a concrete call. -/
theorem claim9_pure_deterministic_witness :
    calculate_greeks ⟨fun _ _ _ _ _ _ => .ok 0, fun _ _ _ _ _ _ => .ok 0,
        fun _ _ _ _ _ _ => .ok 0, fun _ _ _ _ _ _ => .ok 0,
        fun _ _ _ _ _ _ => .ok 0⟩
      "BTC-27MAR26-80000-C".toList 100 (some 65) none ⟨2025, 1, 1, 0, 0, 0⟩
      = calculate_greeks ⟨fun _ _ _ _ _ _ => .ok 0, fun _ _ _ _ _ _ => .ok 0,
          fun _ _ _ _ _ _ => .ok 0, fun _ _ _ _ _ _ => .ok 0,
          fun _ _ _ _ _ _ => .ok 0⟩
        "BTC-27MAR26-80000-C".toList 100 (some 65) none ⟨2025, 1, 1, 0, 0, 0⟩
    ∧ calculate_iv_from_price ⟨fun _ _ _ _ _ _ => .ok 0, fun _ _ _ _ _ _ => .ok 0,
          fun _ _ _ _ _ _ => .ok 0, fun _ _ _ _ _ _ => .ok 0,
          fun _ _ _ _ _ _ => .ok 0⟩
        "BTC-27MAR26-80000-C".toList 100 (3 / 100) none ⟨2025, 1, 1, 0, 0, 0⟩
      = calculate_iv_from_price ⟨fun _ _ _ _ _ _ => .ok 0, fun _ _ _ _ _ _ => .ok 0,
          fun _ _ _ _ _ _ => .ok 0, fun _ _ _ _ _ _ => .ok 0,
          fun _ _ _ _ _ _ => .ok 0⟩
        "BTC-27MAR26-80000-C".toList 100 (3 / 100) none ⟨2025, 1, 1, 0, 0, 0⟩ :=
  claim9_pure_deterministic _ _ _ _ _ _ _ _ _ _ _ _ _
    rfl rfl rfl rfl rfl rfl

/-- C4: for every valid instrument (four fields, numeric strike, parseable
expiry), every resolved observation instant at or after the expiry instant
(time-to-expiry `(expiry - now) / (365.25*24*3600) ≤ 0`, with `now` the
parsed snapshot or the current UTC clock when no snapshot is supplied),
every IV — present or not, valid or not — every spot price and every
backend, `calculate_greeks` returns all four Greeks zero tagged expired:
the expired outcome takes effect before IV validation. -/
theorem claim4_expired_sentinel (L : Libs) (instr u ds ks cs : Str) (k : ℚ)
    (e now : DateTime) (spot : ℚ) (iv : Option ℚ) (snap : Option Str) (utcnow : DateTime)
    (hsplit : splitOnChar '-' instr = [u, ds, ks, cs])
    (hstrike : pyFloat? ks = some k)
    (hexp : parseExpiry ds = some e)
    (hnow : resolveNow snap utcnow = some now)
    (hle : dtSeconds e ≤ dtSeconds now) :
    calculate_greeks L instr spot iv snap utcnow
      = .ok { delta := 0, gamma := 0, vega := 0, theta := 0, tag := some Tag.expired } := by
  simp only [calculate_greeks, hsplit, hstrike, hexp, hnow]
  rw [if_pos (by omega)]

/-- C4 witness: an instrument that expired in 2021, observed at the start of
2025, yields the expired sentinel even with a perfectly valid IV. -/
theorem claim4_expired_sentinel_witness :
    calculate_greeks ⟨fun _ _ _ _ _ _ => .ok 0, fun _ _ _ _ _ _ => .ok 0,
        fun _ _ _ _ _ _ => .ok 0, fun _ _ _ _ _ _ => .ok 0,
        fun _ _ _ _ _ _ => .ok 0⟩
      "BTC-27MAR21-50000-C".toList 100 (some 65)
      (some "2025-01-01".toList) ⟨2024, 6, 1, 0, 0, 0⟩
      = .ok { delta := 0, gamma := 0, vega := 0, theta := 0, tag := some Tag.expired } :=
  claim4_expired_sentinel _ _ "BTC".toList "27MAR21".toList "50000".toList "C".toList
    50000 ⟨2021, 3, 27, 8, 0, 0⟩ ⟨2025, 1, 1, 0, 0, 0⟩ _ _ _ _
    (by decide) (by decide) (by decide) (by decide) (by decide)

/-- C5: for every valid, not-yet-expired instrument, an IV input that is
absent (`None`) or less than or equal to zero always yields all four Greeks
zero tagged `"Invalid IV"`, regardless of the spot price, the strike and the
backend (the Python guard `if not iv or iv <= 0` rejects `None`, `0` and
negatives alike). -/
theorem claim5_invalid_iv_sentinel (L : Libs) (instr u ds ks cs : Str) (k : ℚ)
    (e now : DateTime) (spot : ℚ) (iv : Option ℚ) (snap : Option Str) (utcnow : DateTime)
    (hsplit : splitOnChar '-' instr = [u, ds, ks, cs])
    (hstrike : pyFloat? ks = some k)
    (hexp : parseExpiry ds = some e)
    (hnow : resolveNow snap utcnow = some now)
    (hlt : dtSeconds now < dtSeconds e)
    (hiv : iv = none ∨ ∃ v, iv = some v ∧ v ≤ 0) :
    calculate_greeks L instr spot iv snap utcnow
      = .ok { delta := 0, gamma := 0, vega := 0, theta := 0,
              tag := some (Tag.error "Invalid IV") } := by
  simp only [calculate_greeks, hsplit, hstrike, hexp, hnow]
  rw [if_neg (by omega)]
  rcases hiv with h | ⟨v, hv, hv0⟩
  · subst h; rfl
  · subst hv
    simp only [greeksBody]
    rw [if_pos hv0]
    rfl

/-- C5 witness: a live instrument with IV zero yields the Invalid IV
sentinel. -/
theorem claim5_invalid_iv_sentinel_witness :
    calculate_greeks ⟨fun _ _ _ _ _ _ => .ok 0, fun _ _ _ _ _ _ => .ok 0,
        fun _ _ _ _ _ _ => .ok 0, fun _ _ _ _ _ _ => .ok 0,
        fun _ _ _ _ _ _ => .ok 0⟩
      "BTC-27MAR26-80000-C".toList 100 (some 0)
      (some "2025-01-01".toList) ⟨2024, 6, 1, 0, 0, 0⟩
      = .ok { delta := 0, gamma := 0, vega := 0, theta := 0,
              tag := some (Tag.error "Invalid IV") } :=
  claim5_invalid_iv_sentinel _ _ "BTC".toList "27MAR26".toList "80000".toList "C".toList
    80000 ⟨2026, 3, 27, 8, 0, 0⟩ ⟨2025, 1, 1, 0, 0, 0⟩ _ _ _ _
    (by decide) (by decide) (by decide) (by decide) (by decide)
    (Or.inr ⟨0, rfl, le_refl 0⟩)

/-- C6: on the success path (instrument parsed, time-to-expiry positive,
IV present and positive, no backend exception), `calculate_greeks` calls the
Black-Scholes backend with volatility `sigma = iv / 100` and the hardcoded
risk-free rate `r = 0.05` at the derived time-to-expiry
`t = (expiry - now) / (365.25*24*3600)`, and returns delta rounded to 4
decimal places, gamma to 6, vega to 4 and theta to 4, with no error tag. -/
theorem claim6_greeks_success_path (L : Libs) (instr u ds ks cs : Str) (k : ℚ)
    (e now : DateTime) (spot v : ℚ) (snap : Option Str) (utcnow : DateTime)
    (t : ℚ) (ot : Char) (dv gv vv tv : ℚ)
    (hsplit : splitOnChar '-' instr = [u, ds, ks, cs])
    (hstrike : pyFloat? ks = some k)
    (hexp : parseExpiry ds = some e)
    (hnow : resolveNow snap utcnow = some now)
    (hlt : dtSeconds now < dtSeconds e)
    (hv : 0 < v)
    (ht : t = (((dtSeconds e : ℤ) - (dtSeconds now : ℤ) : ℤ) : ℚ) / yearSeconds)
    (hot : ot = if cs = ['C'] then 'c' else 'p')
    (hd : L.delta ot spot k t (5 / 100) (v / 100) = .ok dv)
    (hg : L.gamma ot spot k t (5 / 100) (v / 100) = .ok gv)
    (hve : L.vega ot spot k t (5 / 100) (v / 100) = .ok vv)
    (hth : L.theta ot spot k t (5 / 100) (v / 100) = .ok tv) :
    calculate_greeks L instr spot (some v) snap utcnow
      = .ok { delta := roundTo 4 dv, gamma := roundTo 6 gv,
              vega := roundTo 4 vv, theta := roundTo 4 tv, tag := none } := by
  subst ht hot
  simp only [calculate_greeks, hsplit, hstrike, hexp, hnow]
  rw [if_neg (by omega)]
  simp only [greeksBody]
  rw [if_neg (not_le.mpr hv)]
  simp only [hd, hg, hve, hth]

/-- C6 witness: a concrete live instrument with IV 65 and a backend whose
four Greeks return 1, 2, 3, 4 yields exactly those values rounded to
4, 6, 4 and 4 decimal places. -/
theorem claim6_greeks_success_path_witness :
    calculate_greeks ⟨fun _ _ _ _ _ _ => .ok 1, fun _ _ _ _ _ _ => .ok 2,
        fun _ _ _ _ _ _ => .ok 3, fun _ _ _ _ _ _ => .ok 4,
        fun _ _ _ _ _ _ => .ok 0⟩
      "BTC-27MAR26-80000-C".toList 100 (some 65)
      (some "2025-01-01".toList) ⟨2024, 6, 1, 0, 0, 0⟩
      = .ok { delta := roundTo 4 1, gamma := roundTo 6 2,
              vega := roundTo 4 3, theta := roundTo 4 4, tag := none } :=
  claim6_greeks_success_path _ _ "BTC".toList "27MAR26".toList "80000".toList "C".toList
    80000 ⟨2026, 3, 27, 8, 0, 0⟩ ⟨2025, 1, 1, 0, 0, 0⟩ 100 65 _ _
    ((((dtSeconds ⟨2026, 3, 27, 8, 0, 0⟩ : ℤ) - (dtSeconds ⟨2025, 1, 1, 0, 0, 0⟩ : ℤ) : ℤ) : ℚ)
      / yearSeconds)
    'c' 1 2 3 4
    (by decide) (by decide) (by decide) (by decide) (by decide) (by norm_num)
    rfl (by decide) rfl rfl rfl rfl

/-- C7: on the success path, `calculate_iv_from_price` converts the
underlying-denominated option price to quote currency as
`option_price * spot_price`, hands that to the implied-volatility solver
together with spot, strike, the derived time-to-expiry and `r = 0.05`,
and returns the solver's volatility multiplied by 100 (a percentage). -/
theorem claim7_iv_success_path (L : Libs) (instr u ds ks cs : Str) (k : ℚ)
    (e now : DateTime) (spot p : ℚ) (snap : Option Str) (utcnow : DateTime)
    (t sg : ℚ) (ot : Char)
    (hsplit : splitOnChar '-' instr = [u, ds, ks, cs])
    (hstrike : pyFloat? ks = some k)
    (hexp : parseExpiry ds = some e)
    (hnow : resolveNow snap utcnow = some now)
    (hlt : dtSeconds now < dtSeconds e)
    (ht : t = (((dtSeconds e : ℤ) - (dtSeconds now : ℤ) : ℤ) : ℚ) / yearSeconds)
    (hot : ot = if cs = ['C'] then 'c' else 'p')
    (hsolve : L.implied_volatility (p * spot) spot k t (5 / 100) ot = .ok sg) :
    calculate_iv_from_price L instr spot p snap utcnow = .ok (some (sg * 100)) := by
  subst ht hot
  simp only [calculate_iv_from_price, hsplit, hstrike, hexp, hnow]
  rw [if_neg (by omega)]
  simp only [hsolve]

/-- C7 witness: with a solver that returns volatility 0.65, the function
returns 65 (percent). -/
theorem claim7_iv_success_path_witness :
    calculate_iv_from_price ⟨fun _ _ _ _ _ _ => .ok 0, fun _ _ _ _ _ _ => .ok 0,
        fun _ _ _ _ _ _ => .ok 0, fun _ _ _ _ _ _ => .ok 0,
        fun _ _ _ _ _ _ => .ok (65 / 100)⟩
      "BTC-27MAR26-80000-C".toList 100 (3 / 100)
      (some "2025-01-01".toList) ⟨2024, 6, 1, 0, 0, 0⟩
      = .ok (some (65 / 100 * 100)) :=
  claim7_iv_success_path _ _ "BTC".toList "27MAR26".toList "80000".toList "C".toList
    80000 ⟨2026, 3, 27, 8, 0, 0⟩ ⟨2025, 1, 1, 0, 0, 0⟩ 100 (3 / 100) _ _
    ((((dtSeconds ⟨2026, 3, 27, 8, 0, 0⟩ : ℤ) - (dtSeconds ⟨2025, 1, 1, 0, 0, 0⟩ : ℤ) : ℤ) : ℚ)
      / yearSeconds)
    (65 / 100) 'c'
    (by decide) (by decide) (by decide) (by decide) (by decide)
    rfl (by decide) rfl

/-- C8: round trip. `priceOfVol` is the Black-Scholes price of this fixed
instrument at this spot and time-to-expiry as a function of decimal
volatility, modelled from the spec (section 4.3 step 3): the solver is
assumed sound (any volatility it returns reprices to the queried price) and
the pricing function injective in volatility (it is strictly increasing).
If the model prices the option at `P` given percentage IV `iv`, then
`calculate_iv_from_price` applied to the underlying-denominated price
`P / spot` recovers exactly `iv`: the quote conversion multiplies back by
spot, and the solver's decimal volatility is rescaled by 100. -/
theorem claim8_roundtrip (L : Libs) (priceOfVol : ℚ → ℚ) (instr u ds ks cs : Str)
    (k : ℚ) (e now : DateTime) (spot P iv sg : ℚ) (snap : Option Str) (utcnow : DateTime)
    (t : ℚ) (ot : Char)
    (hsplit : splitOnChar '-' instr = [u, ds, ks, cs])
    (hstrike : pyFloat? ks = some k)
    (hexp : parseExpiry ds = some e)
    (hnow : resolveNow snap utcnow = some now)
    (hlt : dtSeconds now < dtSeconds e)
    (ht : t = (((dtSeconds e : ℤ) - (dtSeconds now : ℤ) : ℤ) : ℚ) / yearSeconds)
    (hot : ot = if cs = ['C'] then 'c' else 'p')
    (hspot : spot ≠ 0)
    (hP : priceOfVol (iv / 100) = P)
    (hinj : Function.Injective priceOfVol)
    (hsound : ∀ q s, L.implied_volatility q spot k t (5 / 100) ot = .ok s
        → priceOfVol s = q)
    (hconv : L.implied_volatility P spot k t (5 / 100) ot = .ok sg) :
    calculate_iv_from_price L instr spot (P / spot) snap utcnow = .ok (some iv) := by
  have hsg : sg = iv / 100 := hinj (by rw [hsound P sg hconv, hP])
  have hPP : P / spot * spot = P := div_mul_cancel₀ P hspot
  subst ht hot
  simp only [calculate_iv_from_price, hsplit, hstrike, hexp, hnow]
  rw [if_neg (by omega)]
  simp only [hPP, hconv, hsg]
  rw [div_mul_cancel₀ iv (by norm_num : (100 : ℚ) ≠ 0)]

/-- C8 witness: with the identity pricing model and the solver that inverts
it exactly, price `0.65 / 100` of underlying at spot 100 recovers IV 65. -/
theorem claim8_roundtrip_witness :
    calculate_iv_from_price ⟨fun _ _ _ _ _ _ => .ok 0, fun _ _ _ _ _ _ => .ok 0,
        fun _ _ _ _ _ _ => .ok 0, fun _ _ _ _ _ _ => .ok 0,
        fun q _ _ _ _ _ => .ok q⟩
      "BTC-27MAR26-80000-C".toList 100 (65 / 100 / 100)
      (some "2025-01-01".toList) ⟨2024, 6, 1, 0, 0, 0⟩
      = .ok (some 65) :=
  claim8_roundtrip _ (fun s => s) _ "BTC".toList "27MAR26".toList "80000".toList
    "C".toList 80000 ⟨2026, 3, 27, 8, 0, 0⟩ ⟨2025, 1, 1, 0, 0, 0⟩ 100 (65 / 100) 65
    (65 / 100) _ _
    ((((dtSeconds ⟨2026, 3, 27, 8, 0, 0⟩ : ℤ) - (dtSeconds ⟨2025, 1, 1, 0, 0, 0⟩ : ℤ) : ℤ) : ℚ)
      / yearSeconds)
    'c'
    (by decide) (by decide) (by decide) (by decide) (by decide)
    rfl (by decide) (by norm_num) rfl (fun a b h => h)
    (fun q s h => by cases h; rfl) rfl

/-- Unfolding of `dtSeconds` on an explicit datetime. -/
lemma dtSeconds_mk (y m d h mi s : ℕ) :
    dtSeconds ⟨y, m, d, h, mi, s⟩
      = (daysBeforeYear y + daysBeforeMonth y m + (d - 1)) * 86400
        + h * 3600 + mi * 60 + s := rfl

/-- The tail of the Greeks path (IV validation onwards) can never produce
the expired sentinel: its outcomes are the Invalid-IV sentinel, the
Greeks-calc-error sentinel, or an untagged result. -/
lemma greeksBody_ne_expired (L : Libs) (ot : Char) (spot k t : ℚ) (iv : Option ℚ) :
    greeksBody L ot spot k t iv
      ≠ { delta := 0, gamma := 0, vega := 0, theta := 0, tag := some Tag.expired } := by
  rcases iv with _ | v
  · simp [greeksBody, zeroedWith]
  · by_cases hv : v ≤ 0
    · simp [greeksBody, hv, zeroedWith]
    · cases h1 : L.delta ot spot k t (5 / 100) (v / 100) with
      | error e => simp [greeksBody, hv, h1, zeroedWith]
      | ok dv =>
        cases h2 : L.gamma ot spot k t (5 / 100) (v / 100) with
        | error e => simp [greeksBody, hv, h1, h2, zeroedWith]
        | ok gv =>
          cases h3 : L.vega ot spot k t (5 / 100) (v / 100) with
          | error e => simp [greeksBody, hv, h1, h2, h3, zeroedWith]
          | ok vv =>
            cases h4 : L.theta ot spot k t (5 / 100) (v / 100) with
            | error e => simp [greeksBody, hv, h1, h2, h3, h4, zeroedWith]
            | ok tv => simp [greeksBody, hv, h1, h2, h3, h4]

/-- C10: a snapshot string with no space character is parsed with the bare
`"%Y-%m-%d"` format and therefore denotes 00:00:00 of that day; so when the
as-of string is exactly the instrument's own expiry date, the time
difference is the positive 8-hour gap to the 08:00:00 settlement instant
(28800 seconds), and both `calculate_greeks` (never the expired sentinel)
and `calculate_iv_from_price` (proceeding to the solver) treat the contract
as not expired. -/
theorem claim10_bare_date_asof_not_expired (L : Libs) (instr u ds ks cs s : Str)
    (k : ℚ) (y m d : ℕ) (spot p : ℚ) (iv : Option ℚ) (utcnow : DateTime)
    (hsplit : splitOnChar '-' instr = [u, ds, ks, cs])
    (hstrike : pyFloat? ks = some k)
    (hdate : parseDMY ds = some (y, m, d))
    (hempty : s.isEmpty = false)
    (hnospace : s.contains ' ' = false)
    (hsnap : parseYMD s = some (y, m, d)) :
    resolveNow (some s) utcnow = some ⟨y, m, d, 0, 0, 0⟩
    ∧ (dtSeconds ⟨y, m, d, 8, 0, 0⟩ : ℤ) - (dtSeconds ⟨y, m, d, 0, 0, 0⟩ : ℤ) = 28800
    ∧ calculate_greeks L instr spot iv (some s) utcnow
        ≠ .ok { delta := 0, gamma := 0, vega := 0, theta := 0, tag := some Tag.expired }
    ∧ calculate_iv_from_price L instr spot p (some s) utcnow
        = .ok ((L.implied_volatility (p * spot) spot k
              (((28800 : ℤ) : ℚ) / yearSeconds) (5 / 100)
              (if cs = ['C'] then 'c' else 'p')).toOption.map (fun x => x * 100)) := by
  have hexp : parseExpiry ds = some ⟨y, m, d, 8, 0, 0⟩ := by
    simp only [parseExpiry, hdate]; rfl
  have hns : ' ' ∉ s := by simpa using hnospace
  have hres : resolveNow (some s) utcnow = some ⟨y, m, d, 0, 0, 0⟩ := by
    simp [resolveNow, hempty, hns, hsnap]
  have hgap : dtSeconds ⟨y, m, d, 8, 0, 0⟩ = dtSeconds ⟨y, m, d, 0, 0, 0⟩ + 28800 := by
    have e1 := dtSeconds_mk y m d 8 0 0
    have e2 := dtSeconds_mk y m d 0 0 0
    omega
  have h28 : (dtSeconds ⟨y, m, d, 8, 0, 0⟩ : ℤ) - (dtSeconds ⟨y, m, d, 0, 0, 0⟩ : ℤ)
      = (28800 : ℤ) := by omega
  refine ⟨hres, h28, ?_, ?_⟩
  · simp only [calculate_greeks, hsplit, hstrike, hexp, hres]
    rw [if_neg (by omega)]
    intro hcontra
    exact greeksBody_ne_expired _ _ _ _ _ _ (Except.ok.inj hcontra)
  · simp only [calculate_iv_from_price, hsplit, hstrike, hexp, hres]
    rw [if_neg (by omega), h28]
    cases hsol : L.implied_volatility (p * spot) spot k (((28800 : ℤ) : ℚ) / yearSeconds)
        (5 / 100) (if cs = ['C'] then 'c' else 'p') with
    | error er => simp [hsol, Except.toOption]
    | ok ivv => simp [hsol, Except.toOption]

/-- C10 witness: for `BTC-27MAR26-80000-C` observed with the bare as-of
string `"2026-03-27"` (its own expiry date), the contract is not expired:
the observation instant is midnight, 8 hours before settlement. -/
theorem claim10_bare_date_asof_not_expired_witness :
    resolveNow (some "2026-03-27".toList) ⟨2024, 6, 1, 0, 0, 0⟩
        = some ⟨2026, 3, 27, 0, 0, 0⟩
    ∧ (dtSeconds ⟨2026, 3, 27, 8, 0, 0⟩ : ℤ) - (dtSeconds ⟨2026, 3, 27, 0, 0, 0⟩ : ℤ) = 28800
    ∧ calculate_greeks ⟨fun _ _ _ _ _ _ => .ok 0, fun _ _ _ _ _ _ => .ok 0,
          fun _ _ _ _ _ _ => .ok 0, fun _ _ _ _ _ _ => .ok 0,
          fun _ _ _ _ _ _ => .ok 0⟩
        "BTC-27MAR26-80000-C".toList 100 (some 65)
        (some "2026-03-27".toList) ⟨2024, 6, 1, 0, 0, 0⟩
        ≠ .ok { delta := 0, gamma := 0, vega := 0, theta := 0, tag := some Tag.expired }
    ∧ calculate_iv_from_price ⟨fun _ _ _ _ _ _ => .ok 0, fun _ _ _ _ _ _ => .ok 0,
          fun _ _ _ _ _ _ => .ok 0, fun _ _ _ _ _ _ => .ok 0,
          fun _ _ _ _ _ _ => .ok 0⟩
        "BTC-27MAR26-80000-C".toList 100 (3 / 100)
        (some "2026-03-27".toList) ⟨2024, 6, 1, 0, 0, 0⟩
        = .ok ((Except.ok (0 : ℚ) : Except String ℚ).toOption.map (fun x => x * 100)) :=
  claim10_bare_date_asof_not_expired _ _ "BTC".toList "27MAR26".toList
    "80000".toList "C".toList "2026-03-27".toList 80000 2026 3 27 100 (3 / 100)
    (some 65) ⟨2024, 6, 1, 0, 0, 0⟩
    (by decide) (by decide) (by decide) (by decide) (by decide) (by decide)

end DeribitOptions
